import Mathlib

/-!
# Verification of the gradient-descent matrix-factorization core

Shallow embedding of the collaborative-filtering notebook
`src/Calepins/Projet-Optimisation.ipynb`.

Modelling conventions:
* Ratings are exact rationals (`ℚ`); the Python floats are modelled as exact
  real arithmetic, as usual for spec-level reasoning.
* An RDD of rating triples is a `List (Nat × Nat × ℚ)`; the deterministic
  iteration order of a collected RDD is the list order.
* numpy's global random generator is modelled as an explicit stream
  `rand : Nat → ℚ` consumed in allocation order (first the `M*K` entries of
  `P`, row-major, then the `N*K` entries of `Q`).
* `scipy.sparse.csr_matrix((data, (row, col)))` sums duplicate `(row, col)`
  entries, infers the shape as `(max row + 1, max col + 1)`, and raises a
  `ValueError` when the index arrays are empty; `R.nonzero()` returns the
  positions of the *nonzero* stored values (explicitly stored zeros are
  masked out) in row-major order.  These documented library behaviours are
  embedded directly.
* User and movie IDs are positive integers (data model of the spec), so the
  Python index computation `part[0]-1` is modelled with `Nat` subtraction.
-/

namespace MF

/-- A rating triple `(userID, movieID, rating)`, as produced by `parseRating`. -/
abbrev Rating := Nat × Nat × ℚ

/-- A dense row vector (one row of `P` or `Q`). -/
abbrev Vec := List ℚ

/-- A dense matrix, stored as its list of rows (numpy 2-d array). -/
abbrev Mat := List Vec

/-- Errors surfaced by the core.  `emptyDataset` is the spec's
`EmptyDatasetError`; `valueError` stands for the Python `ValueError` raised by
the scipy sparse constructor when it cannot infer dimensions from zero-sized
index arrays. -/
inductive MFError where
  | emptyDataset
  | valueError
  deriving DecidableEq

/-- Dot product of two equally long rows, `np.dot(p, q)`. -/
def dot (p q : Vec) : ℚ := (List.zipWith (fun a b => a * b) p q).sum

/-- Row `i` of a matrix (`A[i,:]`). -/
def rowOf (A : Mat) (i : Nat) : Vec := A.getD i []

/-- Modelled from the spec: the notebook body of `predictedRating` is
`#### TO DO`.  Per spec §4.1 the predicted rating for `x = (UserID, MovieID,
Rating)` is the dot product of the user's latent row and the item's latent
row: `predicted = p · q` with `p = P[UserID-1,:]`, `q = Q[MovieID-1,:]`. -/
def predictedRating (x : Rating) (P Q : Mat) : ℚ :=
  dot (rowOf P (x.1 - 1)) (rowOf Q (x.2.1 - 1))

/-- The unregularized mean squared error over a non-empty dataset:
`(Σ_{(i,j,r)∈D} (r − p_i·q_j)²) / |D|`. -/
def mseVal (rdd : List Rating) (P Q : Mat) : ℚ :=
  ((rdd.map fun x => (x.2.2 - predictedRating x P Q) ^ 2).sum) / (rdd.length : ℚ)

/-- Modelled from the spec: the notebook body of `computeMSE` is
`##### TO DO`.  Per spec §4.2/§7 it returns the mean squared error over the
observed entries of the dataset, and a zero-entry dataset is a defined
`EmptyDatasetError` rather than a division by zero. -/
def computeMSE (rdd : List Rating) (P Q : Mat) : Except MFError ℚ :=
  if rdd.isEmpty then .error .emptyDataset else .ok (mseVal rdd P Q)

/-- The value stored at position `(i, j)` (0-based) of the sparse matrix
`R = sparse.csr_matrix((data, (row, col)))` built by `GD`: scipy sums the
data of all duplicate `(row, col)` pairs, and absent positions hold 0. -/
def Rentry (D : List Rating) (i j : Nat) : ℚ :=
  ((D.filter fun t => t.1 - 1 == i && t.2.1 - 1 == j).map fun t => t.2.2).sum

/-- Number of rows of `R` inferred by the sparse constructor on non-empty
input: `max row index + 1`. -/
def nRows (D : List Rating) : Nat := (D.map fun t => t.1 - 1).foldr max 0 + 1

/-- Number of columns of `R` inferred by the sparse constructor on non-empty
input: `max col index + 1`. -/
def nCols (D : List Rating) : Nat := (D.map fun t => t.2.1 - 1).foldr max 0 + 1

/-- The iteration sequence `zip(I, J)` with `I, J = R.nonzero()`:
the positions whose *stored value is nonzero*, in row-major order
(CSR canonical order).  Explicitly stored zeros are masked out by
`nonzero()`, exactly as in scipy. -/
def nonzeroEntries (D : List Rating) : List (Nat × Nat) :=
  (List.range (nRows D)).flatMap fun i =>
    (List.range (nCols D)).filterMap fun j =>
      if Rentry D i j ≠ 0 then some (i, j) else none

/-- The random matrix `np.random.rand(rows, cols)`, drawn from the explicit
random stream starting at offset `off`, row-major. -/
def randMat (rand : Nat → ℚ) (off rows cols : Nat) : Mat :=
  (List.range rows).map fun i => (List.range cols).map fun j => rand (off + i * cols + j)

/-- Pointwise sum of two rows. -/
def vadd (v w : Vec) : Vec := List.zipWith (fun a b => a + b) v w

/-- Pointwise difference of two rows. -/
def vsub (v w : Vec) : Vec := List.zipWith (fun a b => a - b) v w

/-- Scalar multiple of a row. -/
def smul (c : ℚ) (v : Vec) : Vec := v.map fun a => c * a

/-- Modelled from the spec: the per-entry update body of `GD` is
`#### TO DO` in the notebook.  Per spec §4.3, with `e = r − p·q` computed
from the snapshot `(p, q)` taken at the start of the step:
`p ← p + γ(2·e·q − 2·λ·p)` and `q ← q + γ(2·e·p_OLD − 2·λ·q)`;
both new rows are computed from the snapshot (simultaneous-update
semantics), so the `q` update uses the pre-update `p`. -/
def updateEntry (GAMMA LAMBDA r : ℚ) (p q : Vec) : Vec × Vec :=
  let e := r - dot p q
  (vadd p (smul GAMMA (vsub (smul (2 * e) q) (smul (2 * LAMBDA) p))),
   vadd q (smul GAMMA (vsub (smul (2 * e) p) (smul (2 * LAMBDA) q))))

/-- One visit of the inner loop `for i,j in zip(I,J)`: update `P[i,:]` and
`Q[j,:]` in place using the stored rating `R[i,j]`. -/
def gdStep (GAMMA LAMBDA : ℚ) (D : List Rating) (PQ : Mat × Mat) (ij : Nat × Nat) :
    Mat × Mat :=
  let pq := updateEntry GAMMA LAMBDA (Rentry D ij.1 ij.2) (rowOf PQ.1 ij.1) (rowOf PQ.2 ij.2)
  (PQ.1.set ij.1 pq.1, PQ.2.set ij.2 pq.2)

/-- One epoch: a single left-to-right pass of `gdStep` over the fixed
iteration sequence `zip(I, J)`. -/
def epochPass (GAMMA LAMBDA : ℚ) (D : List Rating) (PQ : Mat × Mat) : Mat × Mat :=
  (nonzeroEntries D).foldl (gdStep GAMMA LAMBDA D) PQ

/-- The epoch loop `for epoch in range(MAXITER)`: runs exactly `n` more
epochs from state `PQ`, recording after each epoch the pair
`(epoch index, current training MSE)` (the post-pass recording is a
`#### TO DO` in the notebook; modelled from the spec: epoch `k+1`'s entry is
the unregularized MSE after the `(k+1)`-st full pass). -/
def runEpochs (step : Mat × Mat → Mat × Mat) (msef : Mat × Mat → ℚ) :
    Nat → Nat → Mat × Mat → (Mat × Mat) × List (Nat × ℚ)
  | 0, _, PQ => (PQ, [])
  | n + 1, k, PQ =>
    let PQ2 := step PQ
    let rest := runEpochs step msef n (k + 1) PQ2
    (rest.1, (k + 1, msef PQ2) :: rest.2)

/-- The gradient-descent trainer `GD(trainRDD, K, MAXITER, GAMMA, LAMBDA)` of
the notebook.  It collects the RDD into a sparse matrix `R` (duplicates
summed; on an empty dataset the scipy constructor raises a `ValueError`),
randomly initializes `P : M×K` and `Q : N×K` from the random stream `rand`,
records the epoch-0 MSE of the just-initialized factors, then runs exactly
`MAXITER` epochs over the fixed nonzero iteration sequence, recording the
training MSE after each epoch.  No `K` validation and no early stopping
appear in the code. -/
def GD (trainRDD : List Rating) (K MAXITER : Nat) (GAMMA LAMBDA : ℚ)
    (rand : Nat → ℚ) : Except MFError (Mat × Mat × List (Nat × ℚ)) :=
  if trainRDD.isEmpty then .error .valueError
  else
    let M := nRows trainRDD
    let N := nCols trainRDD
    let P := randMat rand 0 M K
    let Q := randMat rand (M * K) N K
    let mse0 := mseVal trainRDD P Q
    let res := runEpochs (epochPass GAMMA LAMBDA trainRDD)
      (fun PQ => mseVal trainRDD PQ.1 PQ.2) MAXITER 0 (P, Q)
    .ok (res.1.1, res.1.2, (0, mse0) :: res.2)

/-- The initial factor pair `(P, Q)` allocated by `GD`: `M×K` then `N×K`
random entries drawn in order from the stream. -/
def gdInit (D : List Rating) (K : Nat) (rand : Nat → ℚ) : Mat × Mat :=
  (randMat rand 0 (nRows D) K, randMat rand (nRows D * K) (nCols D) K)

/-- The factor pair after `t` full epochs (closed form used to state the
theorems about `GD`). -/
def gdState (D : List Rating) (K : Nat) (G L : ℚ) (rand : Nat → ℚ) (t : Nat) : Mat × Mat :=
  (epochPass G L D)^[t] (gdInit D K rand)

/-- The closed form of the loss history returned by `GD`: the `(t, mse)` pair
for every `t = 0, …, MAXITER`, where the epoch-`t` loss is the unregularized
training MSE of the factors after exactly `t` full epochs. -/
def lossHistory (D : List Rating) (K MI : Nat) (G L : ℚ) (rand : Nat → ℚ) : List (Nat × ℚ) :=
  (List.range (MI + 1)).map fun t =>
    (t, mseVal D (gdState D K G L rand t).1 (gdState D K G L rand t).2)

/-- The row-major (lexicographic) strict order on matrix positions. -/
def rowMajorLt (a b : Nat × Nat) : Prop := a.1 < b.1 ∨ (a.1 = b.1 ∧ a.2 < b.2)

lemma runEpochs_spec (step : Mat × Mat → Mat × Mat) (msef : Mat × Mat → ℚ) :
    ∀ (n k : Nat) (PQ : Mat × Mat),
      runEpochs step msef n k PQ =
        (step^[n] PQ, (List.range n).map fun t => (k + t + 1, msef (step^[t + 1] PQ))) := by
  intro n
  induction n with
  | zero => intro k PQ; simp [runEpochs]
  | succ n ih =>
    intro k PQ
    rw [runEpochs]
    rw [ih (k + 1) (step PQ)]
    refine Prod.ext ?_ ?_
    · simp [Function.iterate_succ_apply]
    · simp only [List.range_succ_eq_map, List.map_cons, List.map_map]
      rw [Function.iterate_one]
      refine congrArg₂ _ (by simp) ?_
      refine List.map_congr_left fun t _ => ?_
      simp only [Function.comp_apply]
      rw [← Function.iterate_succ_apply]
      refine congrArg₂ _ (by omega) rfl

lemma GD_eq (D : List Rating) (K MI : Nat) (G L : ℚ) (rand : Nat → ℚ) (hD : D ≠ []) :
    GD D K MI G L rand =
      .ok ((gdState D K G L rand MI).1, (gdState D K G L rand MI).2,
        lossHistory D K MI G L rand) := by
  rw [GD, if_neg (by simpa [List.isEmpty_iff] using hD)]
  simp only [runEpochs_spec]
  refine congrArg _ (Prod.ext rfl (Prod.ext rfl ?_))
  show (0, mseVal D (gdInit D K rand).1 (gdInit D K rand).2) :: _ = lossHistory D K MI G L rand
  rw [lossHistory, List.range_succ_eq_map, List.map_cons, List.map_map]
  refine congrArg₂ _ (by simp [gdState]) ?_
  refine List.map_congr_left fun t _ => ?_
  simp only [Function.comp_apply, gdState]
  refine congrArg₂ _ (by omega) rfl

lemma mem_nonzeroEntries {D : List Rating} {i j : Nat} :
    (i, j) ∈ nonzeroEntries D ↔ i < nRows D ∧ j < nCols D ∧ Rentry D i j ≠ 0 := by
  simp only [nonzeroEntries, List.mem_flatMap, List.mem_filterMap, List.mem_range,
    Option.ite_none_right_eq_some, Option.some.injEq, Prod.mk.injEq]
  constructor
  · rintro ⟨a, ha, b, hb, hz, rfl, rfl⟩
    exact ⟨ha, hb, hz⟩
  · rintro ⟨hi, hj, hz⟩
    exact ⟨i, hi, j, hj, hz, rfl, rfl⟩

lemma nonzeroEntries_pairwise (D : List Rating) :
    (nonzeroEntries D).Pairwise rowMajorLt := by
  rw [nonzeroEntries, List.pairwise_flatMap]
  constructor
  · intro i _
    rw [List.pairwise_filterMap]
    refine (List.pairwise_lt_range _).imp ?_
    intro a b hab x hx y hy
    simp only [Option.mem_def, Option.ite_none_right_eq_some, Option.some.injEq] at hx hy
    rw [← hx.2, ← hy.2]
    exact Or.inr ⟨rfl, hab⟩
  · refine (List.pairwise_lt_range _).imp ?_
    intro a b hab x hx y hy
    rw [List.mem_filterMap] at hx hy
    obtain ⟨jx, _, hjx⟩ := hx
    obtain ⟨jy, _, hjy⟩ := hy
    rw [Option.ite_none_right_eq_some, Option.some.injEq] at hjx hjy
    rw [← hjx.2, ← hjy.2]
    exact Or.inl hab

lemma nonzeroEntries_nodup (D : List Rating) : (nonzeroEntries D).Nodup :=
  (nonzeroEntries_pairwise D).imp (by rintro ⟨a1, a2⟩ ⟨b1, b2⟩ (h | ⟨h1, h2⟩) <;>
    simp_all <;> omega)

lemma getD_update_formula (g c d : ℚ) (p q : Vec) (k : Nat)
    (hk : k < p.length) (hq : k < q.length) :
    (vadd p (smul g (vsub (smul c q) (smul d p)))).getD k 0
      = p.getD k 0 + g * (c * q.getD k 0 - d * p.getD k 0) := by
  have hl : k < (vadd p (smul g (vsub (smul c q) (smul d p)))).length := by
    simp [vadd, vsub, smul, hk, hq]
  rw [List.getD_eq_getElem _ _ hl, List.getD_eq_getElem _ _ hk, List.getD_eq_getElem _ _ hq]
  simp [vadd, vsub, smul, List.getElem_zipWith]

lemma dot_eq_sum : ∀ (p q : Vec) (k : Nat), p.length = k → q.length = k →
    dot p q = ∑ i ∈ Finset.range k, p.getD i 0 * q.getD i 0 := by
  intro p
  induction p with
  | nil =>
    intro q k hp hq
    subst hp
    simp [dot]
  | cons a p ih =>
    intro q k hp hq
    match q, k with
    | b :: q, k + 1 =>
      simp only [List.length_cons, Nat.add_right_cancel_iff] at hp hq
      rw [Finset.sum_range_succ']
      simp only [List.getD_cons_succ, List.getD_cons_zero]
      rw [← ih q k hp hq]
      simp [dot, List.zipWith]
      ring

lemma rowOf_set (A : Mat) (i : Nat) (v : Vec) (h : i < A.length) :
    rowOf (A.set i v) i = v := by
  rw [rowOf, List.getD_eq_getElem _ _ (by simpa using h)]
  exact List.getElem_set_self (by simpa using h)

/-- C1: for every observed training entry `(i, j, r_ij)` visited during an
epoch, the per-entry update applied by the trainer is, componentwise,
`p_i + GAMMA*(2*e*q_j - 2*LAMBDA*p_i)` for the new `P[i,:]` and
`q_j + GAMMA*(2*e*p_i_OLD - 2*LAMBDA*q_j)` for the new `Q[j,:]`, with
`e = r_ij - p_i . q_j`, where both new rows are computed from the snapshot of
`p_i` and `q_j` taken at the start of the step: the `q_j` update uses the
pre-update `rowOf P i`, never the freshly written row. -/
theorem claim1_update_rule_uses_snapshot (G L : ℚ) (D : List Rating) (P Q : Mat)
    (i j k : Nat) (hi : i < P.length) (hj : j < Q.length)
    (hk : k < (rowOf P i).length) (hq : k < (rowOf Q j).length) :
    (rowOf (gdStep G L D (P, Q) (i, j)).1 i).getD k 0
      = (rowOf P i).getD k 0
        + G * (2 * (Rentry D i j - dot (rowOf P i) (rowOf Q j)) * (rowOf Q j).getD k 0
          - 2 * L * (rowOf P i).getD k 0)
    ∧ (rowOf (gdStep G L D (P, Q) (i, j)).2 j).getD k 0
      = (rowOf Q j).getD k 0
        + G * (2 * (Rentry D i j - dot (rowOf P i) (rowOf Q j)) * (rowOf P i).getD k 0
          - 2 * L * (rowOf Q j).getD k 0) := by
  constructor
  · show (rowOf (P.set i (updateEntry G L (Rentry D i j) (rowOf P i) (rowOf Q j)).1) i).getD k 0 = _
    rw [rowOf_set _ _ _ hi]
    exact getD_update_formula G _ _ _ _ k hk hq
  · show (rowOf (Q.set j (updateEntry G L (Rentry D i j) (rowOf P i) (rowOf Q j)).2) j).getD k 0 = _
    rw [rowOf_set _ _ _ hj]
    exact getD_update_formula G _ _ _ _ k hq hk

/-- Witness for C1 at `P = [[1, 2]]`, `Q = [[3, 4]]`, `D = [(1, 1, 5)]`,
`(i, j) = (0, 0)`, component `k = 0`, `GAMMA = 1`, `LAMBDA = 0`. -/
theorem claim1_witness :
    (0 < ([[(1 : ℚ), 2]] : Mat).length)
    ∧ (0 < ([[(3 : ℚ), 4]] : Mat).length)
    ∧ (0 < (rowOf [[(1 : ℚ), 2]] 0).length)
    ∧ (0 < (rowOf [[(3 : ℚ), 4]] 0).length)
    ∧ ((rowOf (gdStep 1 0 [(1, 1, 5)] ([[(1 : ℚ), 2]], [[(3 : ℚ), 4]]) (0, 0)).1 0).getD 0 0
        = (rowOf [[(1 : ℚ), 2]] 0).getD 0 0
          + 1 * (2 * (Rentry [(1, 1, 5)] 0 0 - dot (rowOf [[(1 : ℚ), 2]] 0) (rowOf [[(3 : ℚ), 4]] 0))
              * (rowOf [[(3 : ℚ), 4]] 0).getD 0 0
            - 2 * 0 * (rowOf [[(1 : ℚ), 2]] 0).getD 0 0)
      ∧ (rowOf (gdStep 1 0 [(1, 1, 5)] ([[(1 : ℚ), 2]], [[(3 : ℚ), 4]]) (0, 0)).2 0).getD 0 0
        = (rowOf [[(3 : ℚ), 4]] 0).getD 0 0
          + 1 * (2 * (Rentry [(1, 1, 5)] 0 0 - dot (rowOf [[(1 : ℚ), 2]] 0) (rowOf [[(3 : ℚ), 4]] 0))
              * (rowOf [[(1 : ℚ), 2]] 0).getD 0 0
            - 2 * 0 * (rowOf [[(3 : ℚ), 4]] 0).getD 0 0)) :=
  ⟨by simp, by simp, by simp [rowOf], by simp [rowOf],
    claim1_update_rule_uses_snapshot 1 0 [(1, 1, 5)] [[(1 : ℚ), 2]] [[(3 : ℚ), 4]] 0 0 0
      (by simp) (by simp) (by simp [rowOf]) (by simp [rowOf])⟩

/-- C2: for every non-empty dataset of rating triples, computeMSE returns
exactly the mean over the triples of the squared residuals
`(r - p_i . q_j) ^ 2`, summed only over the entries present in the dataset
(the sum below is a map over the dataset list itself, so no absent matrix
position contributes a term). -/
theorem claim2_computeMSE_mean_over_observed (D : List Rating) (P Q : Mat) (hD : D ≠ []) :
    computeMSE D P Q =
      .ok ((1 / (D.length : ℚ)) * (D.map fun x => (x.2.2 - predictedRating x P Q) ^ 2).sum) := by
  rw [computeMSE, if_neg (by simpa [List.isEmpty_iff] using hD)]
  refine congrArg _ ?_
  rw [mseVal]
  ring

/-- Witness for C2 at the one-entry dataset `[(1, 1, 3)]` with `P = [[1]]`,
`Q = [[3]]`. -/
theorem claim2_witness :
    ([(1, 1, (3 : ℚ))] : List Rating) ≠ []
    ∧ computeMSE [(1, 1, 3)] [[(1 : ℚ)]] [[(3 : ℚ)]] =
      .ok ((1 / ((([(1, 1, (3 : ℚ))] : List Rating).length : ℚ)))
        * (([(1, 1, (3 : ℚ))] : List Rating).map
            fun x => (x.2.2 - predictedRating x [[(1 : ℚ)]] [[(3 : ℚ)]]) ^ 2).sum) :=
  ⟨by simp, claim2_computeMSE_mean_over_observed [(1, 1, 3)] [[(1 : ℚ)]] [[(3 : ℚ)]] (by simp)⟩

/-- C3: for every training run on a non-empty dataset, GD returns a finite
ordered loss history of exactly MAXITER + 1 pairs, and the pair recorded at
epoch 0 is the unregularized MSE of the randomly-initialized factors
(the pair of matrices drawn from the random stream), computed before any
gradient update is applied. -/
theorem claim3_history_length_and_baseline (D : List Rating) (K MI : Nat) (G L : ℚ)
    (rand : Nat → ℚ) (hD : D ≠ []) :
    ∃ P Q hist, GD D K MI G L rand = .ok (P, Q, hist)
      ∧ hist.length = MI + 1
      ∧ hist.head? = some (0, mseVal D (gdInit D K rand).1 (gdInit D K rand).2) := by
  refine ⟨_, _, _, GD_eq D K MI G L rand hD, ?_, ?_⟩
  · simp [lossHistory]
  · rw [lossHistory, List.range_succ_eq_map]
    simp [gdState]

/-- Witness for C3 at the dataset `[(1, 1, 5)]`, `K = 1`, `MAXITER = 1`. -/
theorem claim3_witness :
    ([(1, 1, (5 : ℚ))] : List Rating) ≠ []
    ∧ ∃ P Q hist, GD [(1, 1, 5)] 1 1 1 0 (fun _ => 1) = .ok (P, Q, hist)
        ∧ hist.length = 1 + 1
        ∧ hist.head? = some (0, mseVal [(1, 1, 5)]
            (gdInit [(1, 1, 5)] 1 fun _ => 1).1 (gdInit [(1, 1, 5)] 1 fun _ => 1).2) :=
  ⟨by simp, claim3_history_length_and_baseline [(1, 1, 5)] 1 1 1 0 (fun _ => 1) (by simp)⟩

/-- C4 counterexample: the claim says every epoch iterates over every
observed training entry, but an observed entry whose rating is the stored
value 0 is absent from the trainer's iteration sequence: in the dataset
`[(1, 1, 0), (1, 2, 1)]` the triple `(1, 1, 0)` is observed, yet position
`(0, 0)` is not in the nonzero iteration sequence the epoch loop walks. -/
theorem claim4_counterexample :
    (1, 1, (0 : ℚ)) ∈ ([(1, 1, 0), (1, 2, 1)] : List Rating)
    ∧ (0, 0) ∉ nonzeroEntries [(1, 1, 0), (1, 2, 1)] := by
  refine ⟨by simp, ?_⟩
  norm_num [nonzeroEntries, nRows, nCols, Rentry, List.range_succ]

/-- C4 amended: in every epoch the trainer makes one left-to-right pass of
the per-entry update over the fixed iteration sequence (definitionally,
epochPass is a fold of gdStep over nonzeroEntries); that sequence visits
exactly once every position of the sparse matrix holding a nonzero stored
value (observed entries whose stored value is 0 are skipped; duplicates have
been summed at construction), in row-major order; exactly MAXITER epochs run
with no early stop, and after each full pass the unregularized training MSE
is recorded. -/
theorem claim4_amended_epoch_structure (D : List Rating) (K MI : Nat) (G L : ℚ)
    (rand : Nat → ℚ) (hD : D ≠ []) :
    GD D K MI G L rand =
      .ok ((gdState D K G L rand MI).1, (gdState D K G L rand MI).2,
        lossHistory D K MI G L rand)
    ∧ (∀ ij : Nat × Nat, ij ∈ nonzeroEntries D ↔
        ij.1 < nRows D ∧ ij.2 < nCols D ∧ Rentry D ij.1 ij.2 ≠ 0)
    ∧ (nonzeroEntries D).Nodup
    ∧ (nonzeroEntries D).Pairwise rowMajorLt :=
  ⟨GD_eq D K MI G L rand hD, fun ij => by cases ij; exact mem_nonzeroEntries,
    nonzeroEntries_nodup D, nonzeroEntries_pairwise D⟩

/-- Witness for the amended C4 at the dataset `[(1, 1, 5)]`, `K = 1`,
`MAXITER = 1`, `GAMMA = 1`, `LAMBDA = 0`. -/
theorem claim4_witness :
    ([(1, 1, (5 : ℚ))] : List Rating) ≠ []
    ∧ (GD [(1, 1, 5)] 1 1 1 0 (fun _ => 1) =
        .ok ((gdState [(1, 1, 5)] 1 1 0 (fun _ => 1) 1).1,
          (gdState [(1, 1, 5)] 1 1 0 (fun _ => 1) 1).2,
          lossHistory [(1, 1, 5)] 1 1 1 0 fun _ => 1)
      ∧ (∀ ij : Nat × Nat, ij ∈ nonzeroEntries [(1, 1, 5)] ↔
          ij.1 < nRows [(1, 1, 5)] ∧ ij.2 < nCols [(1, 1, 5)]
            ∧ Rentry [(1, 1, 5)] ij.1 ij.2 ≠ 0)
      ∧ (nonzeroEntries [(1, 1, 5)]).Nodup
      ∧ (nonzeroEntries [(1, 1, 5)]).Pairwise rowMajorLt) :=
  ⟨by simp, claim4_amended_epoch_structure [(1, 1, 5)] 1 1 1 0 (fun _ => 1) (by simp)⟩

/-- C5 counterexample: on a zero-entry dataset the trainer does fail fast,
but with the sparse constructor's ValueError (scipy cannot infer matrix
dimensions from zero-sized index arrays), which is not the defined
EmptyDatasetError the claim requires. -/
theorem claim5_counterexample :
    GD [] 10 50 (1 / 1000) (5 / 100) (fun _ => 0) = .error .valueError
    ∧ MFError.valueError ≠ MFError.emptyDataset :=
  ⟨rfl, by decide⟩

/-- C5 amended: a zero-entry dataset never yields a silent numeric result:
computeMSE raises the defined EmptyDatasetError (no division by zero is
performed), while GD also fails fast but with the sparse constructor's
ValueError rather than EmptyDatasetError. -/
theorem claim5_amended_empty_dataset (P Q : Mat) (K MI : Nat) (G L : ℚ)
    (rand : Nat → ℚ) :
    computeMSE [] P Q = .error .emptyDataset
    ∧ GD [] K MI G L rand = .error .valueError :=
  ⟨rfl, rfl⟩

/-- C6 counterexample: GD with `K = 0` does not fail with a configuration
error: on the one-entry dataset `[(1, 1, 5)]` it allocates rank-0 (empty-row)
factor matrices and returns normally, with every prediction 0 and epoch-0
MSE 25. -/
theorem claim6_counterexample :
    GD [(1, 1, 5)] 0 0 (1 / 1000) (5 / 100) (fun _ => 0) = .ok ([[]], [[]], [(0, 25)]) := by
  norm_num [GD, runEpochs, nonzeroEntries, nRows, nCols, Rentry, randMat, mseVal,
    predictedRating, rowOf, dot, List.range_succ]

/-- C6 amended: the trainer performs no K validation at all: `K = 0` is
accepted, the rank-0 factor matrices are allocated, and the run completes
normally on any non-empty dataset (a negative K would fail only inside the
matrix library's allocation, not in any upfront check of the trainer). -/
theorem claim6_amended_no_K_validation (D : List Rating) (MI : Nat) (G L : ℚ)
    (rand : Nat → ℚ) (hD : D ≠ []) :
    (GD D 0 MI G L rand).isOk = true := by
  rw [GD_eq D 0 MI G L rand hD]
  rfl

/-- Witness for the amended C6 at the dataset `[(1, 1, 5)]`. -/
theorem claim6_witness :
    ([(1, 1, (5 : ℚ))] : List Rating) ≠ []
    ∧ (GD [(1, 1, 5)] 0 0 1 0 (fun _ => 0)).isOk = true :=
  ⟨by simp, claim6_amended_no_K_validation [(1, 1, 5)] 0 1 0 (fun _ => 0) (by simp)⟩

/-- C7: for every pair of latent row vectors of equal length k, the
predicted rating is exactly their dot product, written here as the
analytically computed sum of the k componentwise products.  The function is
pure: it reads P and Q and writes nothing. -/
theorem claim7_predict_is_dot_product (x : Rating) (P Q : Mat) (k : Nat)
    (hp : (rowOf P (x.1 - 1)).length = k) (hq : (rowOf Q (x.2.1 - 1)).length = k) :
    predictedRating x P Q =
      ∑ i ∈ Finset.range k, (rowOf P (x.1 - 1)).getD i 0 * (rowOf Q (x.2.1 - 1)).getD i 0 :=
  dot_eq_sum _ _ k hp hq

/-- Witness for C7 at `x = (1, 1, 0)`, `P = [[1, 2]]`, `Q = [[3, 4]]`,
`k = 2`. -/
theorem claim7_witness :
    (rowOf [[(1 : ℚ), 2]] ((1, 1, (0 : ℚ)).1 - 1)).length = 2
    ∧ (rowOf [[(3 : ℚ), 4]] ((1, 1, (0 : ℚ)).2.1 - 1)).length = 2
    ∧ predictedRating (1, 1, 0) [[(1 : ℚ), 2]] [[(3 : ℚ), 4]] =
      ∑ i ∈ Finset.range 2,
        (rowOf [[(1 : ℚ), 2]] ((1, 1, (0 : ℚ)).1 - 1)).getD i 0
          * (rowOf [[(3 : ℚ), 4]] ((1, 1, (0 : ℚ)).2.1 - 1)).getD i 0 :=
  ⟨by simp [rowOf], by simp [rowOf],
    claim7_predict_is_dot_product (1, 1, 0) [[(1 : ℚ), 2]] [[(3 : ℚ), 4]] 2
      (by simp [rowOf]) (by simp [rowOf])⟩

/-- C8: training is deterministic: the trainer is a function of the training
set, K, MAXITER, GAMMA, LAMBDA and the random stream (the model of the seed
state of the global generator), so two runs with the same inputs and the
same random stream produce identical final P, identical final Q and
identical loss histories.  All nondeterminism sources of the original code
(collected RDD order, numpy global generator) are explicit parameters of
this embedding. -/
theorem claim8_deterministic_given_seed (D : List Rating) (K MI : Nat) (G L : ℚ)
    (rand1 rand2 : Nat → ℚ) (h : rand1 = rand2) :
    GD D K MI G L rand1 = GD D K MI G L rand2 := by
  rw [h]

/-- Witness for C8 at the dataset `[(1, 1, 5)]` with the constant stream. -/
theorem claim8_witness :
    GD [(1, 1, 5)] 1 1 1 0 (fun _ => 1) = GD [(1, 1, 5)] 1 1 1 0 (fun _ => 1) :=
  claim8_deterministic_given_seed [(1, 1, 5)] 1 1 1 0 (fun _ => 1) (fun _ => 1) rfl

/-- C9 counterexample: with two ratings for the same (user, item) pair, the
trainer neither rejects the input nor keeps the last-written rating: the
sparse construction sums the duplicates, so the stored value that drives the
gradient updates is 2 + 3 = 5, which is neither the first- nor the
last-written rating. -/
theorem claim9_counterexample :
    Rentry [(1, 1, 2), (1, 1, 3)] 0 0 = 5
    ∧ Rentry [(1, 1, 2), (1, 1, 3)] 0 0 ≠ 3
    ∧ Rentry [(1, 1, 2), (1, 1, 3)] 0 0 ≠ 2
    ∧ (GD [(1, 1, 2), (1, 1, 3)] 1 1 1 0 (fun _ => 1)).isOk = true := by
  refine ⟨by norm_num [Rentry], by norm_num [Rentry], by norm_num [Rentry], ?_⟩
  rw [GD_eq _ _ _ _ _ _ (by simp)]
  rfl

/-- C9 amended: duplicate (user, item) pairs are neither rejected nor
resolved last-write-wins: the sparse-matrix construction sums all ratings
written for the pair, and that summed value is the stored entry the trainer
updates against. -/
theorem claim9_amended_duplicates_summed (u v : Nat) (r1 r2 : ℚ) (rest : List Rating) :
    Rentry ((u, v, r1) :: (u, v, r2) :: rest) (u - 1) (v - 1)
      = r1 + r2 + Rentry rest (u - 1) (v - 1) := by
  simp only [Rentry, List.filter_cons, beq_self_eq_true, Bool.and_self, if_true,
    List.map_cons, List.sum_cons]
  ring

/-- C10: an observed triple whose stored value at its matrix position is 0
(in particular a triple whose rating is exactly 0) is silently skipped by
the epoch loop: its position is absent from the nonzero iteration sequence,
so the entry receives no gradient update even though it is an observed
rating. -/
theorem claim10_zero_rating_skipped (D : List Rating) (u v : Nat)
    (_hmem : (u, v, (0 : ℚ)) ∈ D) (hz : Rentry D (u - 1) (v - 1) = 0) :
    (u - 1, v - 1) ∉ nonzeroEntries D := fun hcontra =>
  (mem_nonzeroEntries.mp hcontra).2.2 hz

/-- Witness for C10 at the dataset `[(1, 1, 0), (2, 2, 3)]`, whose observed
triple `(1, 1, 0)` has stored value 0 at position `(0, 0)`. -/
theorem claim10_witness :
    ((1, 1, (0 : ℚ)) ∈ ([(1, 1, 0), (2, 2, 3)] : List Rating))
    ∧ Rentry [(1, 1, 0), (2, 2, 3)] 0 0 = 0
    ∧ (0, 0) ∉ nonzeroEntries [(1, 1, 0), (2, 2, 3)] :=
  ⟨by simp, by norm_num [Rentry],
    claim10_zero_rating_skipped [(1, 1, 0), (2, 2, 3)] 1 1 (by simp) (by norm_num [Rentry])⟩

end MF
